import Mathlib

/-!
# A shallow embedding of GeoLoc.js

This development models `src/GeoLoc.js` (the edition exposing both the
sequential `getPosition` and the racing `getPositionParallel` strategies).

Modelling decisions:

* JavaScript numbers are modelled as `Option ℚ`: `none` is `NaN`, `some q` a
  finite value.  The repository performs no arithmetic where floating-point
  rounding could matter (only subtraction of a timestamp and comparisons), so
  rationals are a faithful carrier; infinities do not arise from any value the
  code stores or compares.
* `Number(s)` on strings is modelled for (optionally signed) decimal literals
  and the empty/whitespace string; exponent, hexadecimal and `Infinity` forms
  — which the repository never writes into its storage key — parse to `NaN`
  in the model.
* Providers are external collaborators that invoke their callback exactly once
  with either an error or a data object (the spec's Provider contract), so a
  provider is modelled by the single response it delivers.  The sequential
  strategy awaits each callback before touching the next provider, so it is
  embedded as a recursive function producing a trace of events; the parallel
  strategy is embedded as a state machine whose events are the individual
  provider callbacks.
* `localStorage` holds the single key `_GeoLocData`; it is modelled as an
  `Option String` (the value of that key, `none` when unset).
* A synchronous JavaScript exception (an uncaught `TypeError`) is modelled in
  the `thrown` field of the sequential result rather than as a callback.
-/

namespace GeoLoc

/-- A JavaScript number: `none` models `NaN`, `some q` a finite value. -/
abbrev JsNum := Option ℚ

/-- Subtraction on `ℚ` phrased through the normalized constructor `mkRat`, so
that it evaluates inside the kernel; it agrees with `a - b` (`ratSub_eq`). -/
def ratSub (a b : ℚ) : ℚ :=
  mkRat (a.num * b.den - b.num * a.den) (a.den * b.den)

/-- JS subtraction: any operation on `NaN` yields `NaN`. -/
def jsSub : JsNum → JsNum → JsNum
  | some a, some b => some (ratSub a b)
  | _, _ => none

/-- JS `<=`: every comparison with `NaN` is false. -/
def jsLe : JsNum → JsNum → Bool
  | some a, some b => decide (a ≤ b)
  | _, _ => false

/-- Whitespace as JS string trimming sees it (space, tab, LF, CR). -/
def isWs (c : Char) : Bool :=
  c = ' ' || c = '\t' || c = '\n' || c = '\r'

/-- Trim leading and trailing whitespace from a character list. -/
def trimChars (l : List Char) : List Char :=
  ((l.dropWhile isWs).reverse.dropWhile isWs).reverse

/-- Split a character list on a separator character (the semantics of JS
`String.prototype.split` with a one-character separator): `n` consecutive
separators produce `n + 1` pieces, and the empty list yields `[[]]`. -/
def splitCharAux (sep : Char) : List Char → List Char → List (List Char)
  | [], acc => [acc.reverse]
  | c :: cs, acc =>
      if c = sep then acc.reverse :: splitCharAux sep cs []
      else splitCharAux sep cs (c :: acc)

/-- Split a character list on a separator character, from the start. -/
def splitChar (sep : Char) (l : List Char) : List (List Char) :=
  splitCharAux sep l []

/-- Is the character a decimal digit? -/
def isDigitChar (c : Char) : Bool :=
  48 ≤ c.toNat && c.toNat ≤ 57

/-- Numeric value of a digit list, `['1','2','3']` ↦ `123` (used under an
all-digit guard). -/
def digitsVal (l : List Char) : Nat :=
  l.foldl (fun a c => a * 10 + (c.toNat - 48)) 0

/-- `Number()` on an unsigned decimal literal: `"12"`, `"12.5"`, `"12."`,
`".5"` parse; anything else (including `"."` and the empty string) is `NaN`. -/
def parseUnsignedChars (l : List Char) : JsNum :=
  match splitChar '.' l with
  | [ip] =>
      if !ip.isEmpty && ip.all isDigitChar then some (digitsVal ip : ℚ) else none
  | [ip, fp] =>
      if (!ip.isEmpty || !fp.isEmpty) && ip.all isDigitChar && fp.all isDigitChar then
        some (mkRat (digitsVal ip * 10 ^ fp.length + digitsVal fp) (10 ^ fp.length))
      else none
  | _ => none

/-- `Number(s)` on a character list: trimmed, empty ↦ `0`, optional sign, then
an unsigned decimal literal. -/
def jsNumberChars (l : List Char) : JsNum :=
  match trimChars l with
  | [] => some 0
  | '-' :: rest => (parseUnsignedChars rest).map (fun q => -q)
  | '+' :: rest => parseUnsignedChars rest
  | t => parseUnsignedChars t

/-- JS `Number(s)` for a string, restricted to the forms the repository can
encounter in its storage key: whitespace-trimmed, empty ↦ `0`, optionally
signed decimal literal, everything else ↦ `NaN`. -/
def jsNumber (s : String) : JsNum :=
  jsNumberChars s.data

/-- A JavaScript value as far as the code inspects one: a number, a string, or
`undefined` (enough to express the `typeof x != 'number'` checks). -/
inductive JsVal where
  | num (n : JsNum)
  | str (s : String)
  | undef
deriving DecidableEq, Repr

/-- `typeof v == 'number'` — note that `NaN` *is* of type number. -/
def typeofNumber : JsVal → Bool
  | JsVal.num _ => true
  | _ => false

/-- The data object a provider hands to its callback (and the shape the cache
read returns): a `latitude` and a `longitude` field. -/
structure JsData where
  latitude : JsVal
  longitude : JsVal
deriving DecidableEq, Repr

/-- An error value travelling through a callback's first argument: either an
error produced by a provider, or a `TypeError` (the constructor the code calls
with `'Incorrect data'`, and the kind the engine throws when dereferencing
`undefined`). -/
inductive JsError where
  | providerError (msg : String)
  | typeError (msg : String)
deriving DecidableEq, Repr

/-- `String(v)` as used by `Array.prototype.join` on the stored triple. -/
def decimalString (q : ℚ) : String :=
  match (List.range 31).find? (fun k => q.den ∣ 10 ^ k) with
  | some 0 => toString q.num
  | some (k + 1) =>
      let scaled : Nat := q.num.natAbs * ((10 ^ (k + 1)) / q.den)
      let s := toString scaled
      let s := String.mk (List.replicate (k + 2 - s.length) '0') ++ s
      (if q.num < 0 then "-" else "") ++ s.dropRight (k + 1) ++ "." ++ s.takeRight (k + 1)
  | none => toString q

/-- `String(n)` for a JS number (`NaN` prints as `"NaN"`). -/
def jsNumToString (n : JsNum) : String :=
  match n with
  | none => "NaN"
  | some q => decimalString q

/-- `String(v)` for the values `join` can meet here (`undefined` joins as `""`). -/
def jsValToString : JsVal → String
  | JsVal.num n => jsNumToString n
  | JsVal.str s => s
  | JsVal.undef => ""

/-- The string `[data.latitude, data.longitude, Date.now()].join(',')` written
to `localStorage` under the key `_GeoLocData`. -/
def storeString (d : JsData) (now : Int) : String :=
  jsValToString d.latitude ++ "," ++ jsValToString d.longitude ++ "," ++ toString now

/-- `parts[i]` followed by `Number(...)`: indexing past the end of the split
array yields `undefined`, and `Number(undefined)` is `NaN`. -/
def getField (parts : List String) (i : Nat) : JsNum :=
  match parts.get? i with
  | some s => jsNumber s
  | none => none

/-- `GeoLoc.prototype._getPositionFromLocalStorage(maximumAge)`: reads the
`_GeoLocData` key (falsy — absent or empty — means no record), splits on `','`,
and returns the position when `Date.now() - timeStamp <= maximumAge`; the
latitude/longitude fields are `Number(...)`-converted without validation. -/
def _getPositionFromLocalStorage (store : Option String) (now : Int) (maximumAge : ℚ) :
    Option JsData :=
  match store with
  | none => none
  | some raw =>
      if raw = "" then none
      else
        let parts := (splitChar ',' raw.data).map String.mk
        if jsLe (jsSub (some (now : ℚ)) (getField parts 2)) (some maximumAge) then
          some ⟨JsVal.num (getField parts 0), JsVal.num (getField parts 1)⟩
        else none

/-- What a provider's single callback invocation delivers: `(err, data)` with
exactly one of the two meaningful. -/
inductive ProviderResponse where
  | err (e : JsError)
  | ok (data : JsData)
deriving DecidableEq, Repr

/-- A provider, identified by a label and modelled by the one response its
`getPosition` eventually delivers to its callback. -/
structure Provider where
  id : Nat
  resp : ProviderResponse
deriving DecidableEq, Repr

/-- A `GeoLoc` instance: `providerTimeout` (default 10000), `maximumAge`
(default 86400000), and the provider list. -/
structure GeoLocInst where
  providerTimeout : ℚ
  maximumAge : ℚ
  providers : List Provider
deriving DecidableEq, Repr

/-- The per-call `options` object: each field `undefined` (`none`) when absent. -/
structure CallOptions where
  providerTimeout : Option ℚ
  maximumAge : Option ℚ
  providers : Option (List Provider)
deriving DecidableEq, Repr

/-- JS `options.x || d` for a numeric `x`: `undefined` and `0` are falsy. -/
def jsOr (o : Option ℚ) (d : ℚ) : ℚ :=
  match o with
  | some v => if v = 0 then d else v
  | none => d

/-- JS `options.providers || this.providers`: an array — even an empty one —
is truthy, so any supplied array wins. -/
def provOr (o : Option (List Provider)) (d : List Provider) : List Provider :=
  o.getD d

/-- An observable event of a sequential resolve call. -/
inductive Ev where
  | contact (id : Nat)
  | write (value : String)
  | cb (error : Option JsError) (data : Option JsData)
deriving DecidableEq, Repr

/-- Outcome of a sequential resolve call: the ordered trace of events, the
synchronously thrown exception if any, and the final `localStorage` value. -/
structure SeqResult where
  events : List Ev
  thrown : Option JsError
  store : Option String
deriving DecidableEq, Repr

/-- The inner IIFE of `GeoLoc.prototype.getPosition`: `providers.shift()` then
`provider.getPosition(...)`.  On an empty queue `shift()` yields `undefined`
and the call `provider.getPosition` throws a `TypeError` synchronously.  The
callback retries the (mutated) queue on an error or on data whose latitude or
longitude is not of type number, writes the cache and completes on well-formed
data, and reports the last error (or a fresh `TypeError('Incorrect data')`)
when the queue is exhausted. -/
def seqLoop (now : Int) (store : Option String) : List Provider → SeqResult
  | [] => ⟨[], some (JsError.typeError "provider is undefined"), store⟩
  | p :: rest =>
      match p.resp with
      | ProviderResponse.err e =>
          if rest.isEmpty then
            ⟨[Ev.contact p.id, Ev.cb (some e) none], none, store⟩
          else
            let r := seqLoop now store rest
            ⟨Ev.contact p.id :: r.events, r.thrown, r.store⟩
      | ProviderResponse.ok d =>
          if typeofNumber d.latitude && typeofNumber d.longitude then
            ⟨[Ev.contact p.id, Ev.write (storeString d now),
              Ev.cb none (some d)], none, some (storeString d now)⟩
          else if rest.isEmpty then
            ⟨[Ev.contact p.id,
              Ev.cb (some (JsError.typeError "Incorrect data")) none], none, store⟩
          else
            let r := seqLoop now store rest
            ⟨Ev.contact p.id :: r.events, r.thrown, r.store⟩

/-- `GeoLoc.prototype.getPosition(options, cb)`: cache check with the effective
`maximumAge`, then the sequential provider chain.  The source computes
`var providers = options.providers || this.providers;` but never uses it — the
IIFE is applied to `this.providers.slice(0)` — which the dead binding below
mirrors. -/
def getPosition (self : GeoLocInst) (options : CallOptions) (now : Int)
    (store : Option String) : SeqResult :=
  match _getPositionFromLocalStorage store now (jsOr options.maximumAge self.maximumAge) with
  | some pos => ⟨[Ev.cb none (some pos)], none, store⟩
  | none =>
      let _providers := provOr options.providers self.providers
      seqLoop now store self.providers

/-- The providers contacted along a trace, in order. -/
def contacts (evs : List Ev) : List Nat :=
  evs.filterMap (fun e => match e with | Ev.contact i => some i | _ => none)

/-- State of a `getPositionParallel` call after its synchronous part: the ids
of in-flight requests (the `requests` map), the ids whose handles received
`abort()`, the `localStorage` value, and the completion-callback invocations
so far. -/
structure PState where
  requests : List Nat
  aborted : List Nat
  store : Option String
  cbs : List (Option JsError × Option JsData)
deriving DecidableEq, Repr

/-- `hasRequests()`: whether the `requests` map is non-empty. -/
def hasRequests (s : PState) : Bool :=
  !s.requests.isEmpty

/-- One provider callback in `getPositionParallel` (the closure inside
`setData`): first `delete requests[req._GeoLoc_id]`, then — on an error or on
malformed data — invoke `cb` only if no requests remain; on well-formed data
abort every remaining request, write the cache and invoke `cb`. -/
def pStep (now : Int) (s : PState) (id : Nat) (resp : ProviderResponse) : PState :=
  let s1 : PState := { s with requests := s.requests.erase id }
  match resp with
  | ProviderResponse.err e =>
      if hasRequests s1 then s1
      else { s1 with cbs := s1.cbs ++ [(some e, none)] }
  | ProviderResponse.ok d =>
      if typeofNumber d.latitude && typeofNumber d.longitude then
        { s1 with
          requests := [],
          aborted := s1.aborted ++ s1.requests,
          store := some (storeString d now),
          cbs := s1.cbs ++ [(none, some d)] }
      else if hasRequests s1 then s1
      else { s1 with cbs := s1.cbs ++ [(some (JsError.typeError "Incorrect data"), none)] }

/-- Result of the synchronous part of `getPositionParallel`: either an
immediate cache hit (callback fired with the cached position), or the started
state together with the pending `(request id, provider response)` pairs whose
callbacks will arrive as events. -/
inductive ParResult where
  | cacheHit (pos : JsData)
  | started (st : PState) (pending : List (Nat × ProviderResponse))
deriving DecidableEq, Repr

/-- `GeoLoc.prototype.getPositionParallel(options, cb)`: cache check with the
effective `maximumAge`, then `setData` on every provider of the effective list
(`options.providers || this.providers`), consecutive `++uidCounter` values
starting above `uid0` serving as request ids. -/
def getPositionParallel (self : GeoLocInst) (options : CallOptions) (now : Int)
    (store : Option String) (uid0 : Nat) : ParResult :=
  match _getPositionFromLocalStorage store now (jsOr options.maximumAge self.maximumAge) with
  | some pos => ParResult.cacheHit pos
  | none =>
      let provs := provOr options.providers self.providers
      let ids := (List.range provs.length).map (fun i => uid0 + 1 + i)
      ParResult.started ⟨ids, [], store, []⟩ (ids.zip (provs.map Provider.resp))

/-! ## General lemmas about the embedding -/

/-- `ratSub` is ordinary subtraction on `ℚ`. -/
theorem ratSub_eq (a b : ℚ) : ratSub a b = a - b := by
  have ha : ((a.den : ℚ)) ≠ 0 := Nat.cast_ne_zero.mpr a.den_nz
  have hb : ((b.den : ℚ)) ≠ 0 := Nat.cast_ne_zero.mpr b.den_nz
  rw [ratSub, Rat.mkRat_eq_divInt, Rat.divInt_eq_div]
  push_cast
  conv_rhs => rw [← Rat.num_div_den a, ← Rat.num_div_den b]
  rw [div_sub_div _ _ ha hb]
  congr 1
  ring

/-- The contacted providers of a sequential run form a left-to-right prefix of
the queue: no provider is skipped and none is contacted out of order. -/
theorem seq_contacts_take (now : Int) (store : Option String) (q : List Provider) :
    ∃ n, contacts (seqLoop now store q).events = (q.map Provider.id).take n := by
  induction q with
  | nil => exact ⟨0, rfl⟩
  | cons p rest ih =>
      cases hr : p.resp with
      | err e =>
          by_cases hrest : rest.isEmpty
          · exact ⟨1, by simp [seqLoop, hr, hrest, contacts]⟩
          · obtain ⟨n, hn⟩ := ih
            refine ⟨n + 1, ?_⟩
            simp only [seqLoop, hr, hrest, if_false, Bool.false_eq_true, List.map_cons,
              List.take_succ_cons]
            simpa [contacts] using hn
      | ok d =>
          by_cases hwf : (typeofNumber d.latitude && typeofNumber d.longitude) = true
          · exact ⟨1, by simp [seqLoop, hr, hwf, contacts]⟩
          · by_cases hrest : rest.isEmpty
            · exact ⟨1, by simp [seqLoop, hr, hwf, hrest, contacts]⟩
            · obtain ⟨n, hn⟩ := ih
              refine ⟨n + 1, ?_⟩
              simp only [seqLoop, hr, hwf, hrest, if_false, Bool.false_eq_true, List.map_cons,
                List.take_succ_cons]
              simpa [contacts] using hn

/-- Whatever a provider answers, its contact event opens the trace of the
chain started on it. -/
theorem seqLoop_events_head (now : Int) (store : Option String) (p : Provider)
    (rest : List Provider) :
    (seqLoop now store (p :: rest)).events.head? = some (Ev.contact p.id) := by
  cases hr : p.resp with
  | err e => by_cases hrest : rest.isEmpty <;> simp [seqLoop, hr, hrest]
  | ok d =>
      by_cases hwf : (typeofNumber d.latitude && typeofNumber d.longitude) = true
      · simp [seqLoop, hr, hwf]
      · by_cases hrest : rest.isEmpty <;> simp [seqLoop, hr, hwf, hrest]

/-! ## The claims -/

/-- C1: the claim says a sequential resolve that misses the cache iterates the
effective provider list — `options.providers` when given, else the instance's.
The code computes that effective list but iterates `this.providers.slice(0)`
instead: with instance list `[provider 1 (fails)]` and per-call override
`[provider 2 (succeeds with (10, 20))]`, the call contacts provider 1 only and
completes with provider 1's error — the override is never consulted. -/
theorem C1_override_queue_ignored :
    getPosition
        ⟨10000, 86400000, [⟨1, ProviderResponse.err (JsError.providerError "P1 refused")⟩]⟩
        ⟨none, none,
          some [⟨2, ProviderResponse.ok ⟨JsVal.num (some 10), JsVal.num (some 20)⟩⟩]⟩
        0 none =
      ⟨[Ev.contact 1, Ev.cb (some (JsError.providerError "P1 refused")) none], none, none⟩
    ∧ contacts [Ev.contact 1, Ev.cb (some (JsError.providerError "P1 refused")) none] = [1] := by
  exact ⟨by decide, by decide⟩

/-- C2: the claim says that once the parallel strategy's completion callback
has fired after the first well-formed success, any later provider callback is
discarded.  In the code there is no completion flag: the success path empties
the `requests` map, so a late callback — error or success alike — finds
`hasRequests()` false and invokes the completion callback a second time.  With
providers 1 and 2 started, provider 1 succeeding and provider 2 answering
late, the callback fires twice. -/
theorem C2_late_callback_not_discarded :
    getPositionParallel
        ⟨10000, 86400000,
          [⟨1, ProviderResponse.ok ⟨JsVal.num (some 10), JsVal.num (some 20)⟩⟩,
           ⟨2, ProviderResponse.err (JsError.providerError "late failure")⟩]⟩
        ⟨none, none, none⟩ 0 none 0 =
      ParResult.started ⟨[1, 2], [], none, []⟩
        [(1, ProviderResponse.ok ⟨JsVal.num (some 10), JsVal.num (some 20)⟩),
         (2, ProviderResponse.err (JsError.providerError "late failure"))]
    ∧ (pStep 0 ⟨[1, 2], [], none, []⟩ 1
        (ProviderResponse.ok ⟨JsVal.num (some 10), JsVal.num (some 20)⟩)).cbs =
        [(none, some ⟨JsVal.num (some 10), JsVal.num (some 20)⟩)]
    ∧ (pStep 0 ⟨[1, 2], [], none, []⟩ 1
        (ProviderResponse.ok ⟨JsVal.num (some 10), JsVal.num (some 20)⟩)).aborted = [2]
    ∧ (pStep 0
        (pStep 0 ⟨[1, 2], [], none, []⟩ 1
          (ProviderResponse.ok ⟨JsVal.num (some 10), JsVal.num (some 20)⟩)) 2
        (ProviderResponse.err (JsError.providerError "late failure"))).cbs.length = 2
    ∧ (pStep 0
        (pStep 0 ⟨[1, 2], [], none, []⟩ 1
          (ProviderResponse.ok ⟨JsVal.num (some 10), JsVal.num (some 20)⟩)) 2
        (ProviderResponse.ok ⟨JsVal.num (some 30), JsVal.num (some 40)⟩)).cbs.length = 2 := by
  refine ⟨by decide, by decide, by decide, by decide, by decide⟩

/-- C3: the claim says a sequential resolve with an empty effective provider
list and no valid cached record completes through the callback with an error
and does not throw synchronously.  The code instead does `providers.shift()`
on the empty queue — `undefined` — and the call `provider.getPosition(...)`
throws a `TypeError` synchronously: no callback invocation ever happens. -/
theorem C3_empty_provider_list_throws :
    getPosition ⟨10000, 86400000, []⟩ ⟨none, none, none⟩ 0 none =
      ⟨[], some (JsError.typeError "provider is undefined"), none⟩ := by
  decide

/-- C4 counterexample: the claim says the cache read returns absent whenever
any of the three stored fields fails to parse as a number and never returns a
Position with NaN coordinates.  On the stored record `"abc,2,0"` at time `0`
with maximum age `1000`, the latitude field `"abc"` fails to parse, yet the
read returns a Position whose latitude is NaN. -/
theorem C4_counterexample_nan_latitude :
    jsNumber "abc" = none
    ∧ _getPositionFromLocalStorage (some "abc,2,0") 0 1000 =
        some ⟨JsVal.num none, JsVal.num (some 2)⟩ := by
  exact ⟨by decide, by decide⟩

/-- C4 (amended): the cache read returns absent when no record exists, when
the stored string is empty, when the *timestamp* field fails to parse as a
number, and when the record's age strictly exceeds the maximum; otherwise it
returns the position with latitude and longitude `Number(...)`-converted but
unvalidated, so either coordinate may be NaN. -/
theorem C4_cache_read_amended (raw : String) (now : Int) (maxAge : ℚ) (t : ℚ)
    (hraw : raw ≠ "") :
    _getPositionFromLocalStorage none now maxAge = none
    ∧ _getPositionFromLocalStorage (some "") now maxAge = none
    ∧ (getField ((splitChar ',' raw.data).map String.mk) 2 = none →
        _getPositionFromLocalStorage (some raw) now maxAge = none)
    ∧ (getField ((splitChar ',' raw.data).map String.mk) 2 = some t →
        maxAge < (now : ℚ) - t →
        _getPositionFromLocalStorage (some raw) now maxAge = none)
    ∧ (getField ((splitChar ',' raw.data).map String.mk) 2 = some t →
        (now : ℚ) - t ≤ maxAge →
        _getPositionFromLocalStorage (some raw) now maxAge =
          some ⟨JsVal.num (getField ((splitChar ',' raw.data).map String.mk) 0),
                JsVal.num (getField ((splitChar ',' raw.data).map String.mk) 1)⟩) := by
  refine ⟨rfl, by simp [_getPositionFromLocalStorage], ?_, ?_, ?_⟩
  · intro ht
    simp [_getPositionFromLocalStorage, hraw, ht, jsSub, jsLe]
  · intro ht hgt
    simp [_getPositionFromLocalStorage, hraw, ht, jsSub, jsLe, ratSub_eq, not_le.mpr hgt]
  · intro ht hle
    simp [_getPositionFromLocalStorage, hraw, ht, jsSub, jsLe, ratSub_eq, hle]

/-- C4 witness: the amended characterization applied to the record
`"5,6,100"` read at time `1100` with maximum age `1000` (age exactly at the
boundary), and to the same record one millisecond later. -/
theorem C4_cache_read_amended_witness :
    _getPositionFromLocalStorage (some "5,6,100") 1100 1000 =
      some ⟨JsVal.num (some 5), JsVal.num (some 6)⟩
    ∧ _getPositionFromLocalStorage (some "5,6,100") 1101 1000 = none := by
  constructor
  · have h := (C4_cache_read_amended "5,6,100" 1100 1000 100 (by decide)).2.2.2.2
      (by decide) (by norm_num)
    simpa using h
  · have h := (C4_cache_read_amended "5,6,100" 1101 1000 100 (by decide)).2.2.2.1
      (by decide) (by norm_num)
    exact h

/-- C5: with a stored record whose timestamp parses to `t`, a resolve call
whose effective maximum age `M` satisfies `now - t ≤ M` (boundary inclusive)
invokes the completion callback with the cached position and contacts no
provider; when `now - t > M` the cache is bypassed and the head of the
instance's provider list is contacted. -/
theorem C5_cache_boundary (self : GeoLocInst) (options : CallOptions) (now : Int)
    (raw : String) (t : ℚ) (p : Provider) (ps : List Provider)
    (hraw : raw ≠ "")
    (ht : getField ((splitChar ',' raw.data).map String.mk) 2 = some t) :
    ((now : ℚ) - t ≤ jsOr options.maximumAge self.maximumAge →
      getPosition self options now (some raw) =
        ⟨[Ev.cb none
            (some ⟨JsVal.num (getField ((splitChar ',' raw.data).map String.mk) 0),
                   JsVal.num (getField ((splitChar ',' raw.data).map String.mk) 1)⟩)],
         none, some raw⟩
      ∧ contacts (getPosition self options now (some raw)).events = [])
    ∧ (jsOr options.maximumAge self.maximumAge < (now : ℚ) - t →
        self.providers = p :: ps →
        (getPosition self options now (some raw)).events.head? = some (Ev.contact p.id)) := by
  constructor
  · intro hle
    have hread : _getPositionFromLocalStorage (some raw) now
        (jsOr options.maximumAge self.maximumAge) =
        some ⟨JsVal.num (getField ((splitChar ',' raw.data).map String.mk) 0),
              JsVal.num (getField ((splitChar ',' raw.data).map String.mk) 1)⟩ := by
      simp [_getPositionFromLocalStorage, hraw, ht, jsSub, jsLe, ratSub_eq, hle]
    constructor
    · simp [getPosition, hread]
    · simp [getPosition, hread, contacts]
  · intro hgt hps
    have hread : _getPositionFromLocalStorage (some raw) now
        (jsOr options.maximumAge self.maximumAge) = none := by
      simp [_getPositionFromLocalStorage, hraw, ht, jsSub, jsLe, ratSub_eq, not_le.mpr hgt]
    simp only [getPosition, hread, hps]
    exact seqLoop_events_head now (some raw) p ps

/-- C5 witness: with the record `"5,6,100"`, maximum age 1000 and one failing
provider, the call at time 1100 (age exactly 1000) completes from the cache
contacting nobody, and the call at time 1101 contacts provider 7. -/
theorem C5_cache_boundary_witness :
    getPosition ⟨10000, 1000, [⟨7, ProviderResponse.err (JsError.providerError "down")⟩]⟩
        ⟨none, none, none⟩ 1100 (some "5,6,100") =
      ⟨[Ev.cb none (some ⟨JsVal.num (some 5), JsVal.num (some 6)⟩)], none, some "5,6,100"⟩
    ∧ (getPosition ⟨10000, 1000, [⟨7, ProviderResponse.err (JsError.providerError "down")⟩]⟩
        ⟨none, none, none⟩ 1101 (some "5,6,100")).events.head? = some (Ev.contact 7) := by
  constructor
  · have h := ((C5_cache_boundary
        ⟨10000, 1000, [⟨7, ProviderResponse.err (JsError.providerError "down")⟩]⟩
        ⟨none, none, none⟩ 1100 "5,6,100" 100
        ⟨7, ProviderResponse.err (JsError.providerError "down")⟩ []
        (by decide) (by decide)).1 (by norm_num [jsOr])).1
    simpa using h
  · exact (C5_cache_boundary
        ⟨10000, 1000, [⟨7, ProviderResponse.err (JsError.providerError "down")⟩]⟩
        ⟨none, none, none⟩ 1101 "5,6,100" 100
        ⟨7, ProviderResponse.err (JsError.providerError "down")⟩ []
        (by decide) (by decide)).2 (by norm_num [jsOr]) rfl

/-- C6: in the sequential strategy the contacted providers form a left-to-right
prefix of the queue (no reordering, no skipping; in this synchronous embedding
a provider's successor is reached only through that provider's own callback);
on a provider error with providers remaining the chain recurses on the same
remaining queue, and on a provider error with the queue exhausted the
completion callback is invoked with `(that error, null)` and the call ends. -/
theorem C6_sequential_order_and_fallback (now : Int) (store : Option String)
    (q rest : List Provider) (p : Provider) (e : JsError) :
    (∃ n, contacts (seqLoop now store q).events = (q.map Provider.id).take n)
    ∧ (p.resp = ProviderResponse.err e → rest ≠ [] →
        seqLoop now store (p :: rest) =
          ⟨Ev.contact p.id :: (seqLoop now store rest).events,
           (seqLoop now store rest).thrown, (seqLoop now store rest).store⟩)
    ∧ (p.resp = ProviderResponse.err e →
        seqLoop now store [p] = ⟨[Ev.contact p.id, Ev.cb (some e) none], none, store⟩) := by
  refine ⟨seq_contacts_take now store q, ?_, ?_⟩
  · intro hp hrest
    have hne : rest.isEmpty = false := by
      cases rest with
      | nil => exact absurd rfl hrest
      | cons a l => rfl
    simp [seqLoop, hp, hne]
  · intro hp
    simp [seqLoop, hp]

/-- C6 witness: a failing provider 1 followed by a succeeding provider 2 —
the chain contacts 1 then recurses on `[provider 2]`; a failing provider 1
alone delivers its error to the callback. -/
theorem C6_sequential_order_and_fallback_witness :
    seqLoop 0 none
        [⟨1, ProviderResponse.err (JsError.providerError "boom")⟩,
         ⟨2, ProviderResponse.ok ⟨JsVal.num (some 3), JsVal.num (some 4)⟩⟩] =
      ⟨Ev.contact 1 ::
          (seqLoop 0 none
            [⟨2, ProviderResponse.ok ⟨JsVal.num (some 3), JsVal.num (some 4)⟩⟩]).events,
       (seqLoop 0 none
            [⟨2, ProviderResponse.ok ⟨JsVal.num (some 3), JsVal.num (some 4)⟩⟩]).thrown,
       (seqLoop 0 none
            [⟨2, ProviderResponse.ok ⟨JsVal.num (some 3), JsVal.num (some 4)⟩⟩]).store⟩
    ∧ seqLoop 0 none [⟨1, ProviderResponse.err (JsError.providerError "boom")⟩] =
      ⟨[Ev.contact 1, Ev.cb (some (JsError.providerError "boom")) none], none, none⟩ := by
  constructor
  · exact (C6_sequential_order_and_fallback 0 none []
      [⟨2, ProviderResponse.ok ⟨JsVal.num (some 3), JsVal.num (some 4)⟩⟩]
      ⟨1, ProviderResponse.err (JsError.providerError "boom")⟩
      (JsError.providerError "boom")).2.1 rfl (by decide)
  · exact (C6_sequential_order_and_fallback 0 none [] []
      ⟨1, ProviderResponse.err (JsError.providerError "boom")⟩
      (JsError.providerError "boom")).2.2 rfl

/-- C7: a provider success whose latitude and longitude both have number type
makes the sequential chain write the joined record to the cache and then (the
write event precedes the callback event in the trace) invoke the completion
callback with `(null, position)`; no event contacts any of the remaining
providers, whatever they are. -/
theorem C7_success_writes_then_completes (la lo : JsNum) (i : Nat)
    (rest : List Provider) (now : Int) (store : Option String) :
    seqLoop now store (⟨i, ProviderResponse.ok ⟨JsVal.num la, JsVal.num lo⟩⟩ :: rest) =
      ⟨[Ev.contact i, Ev.write (storeString ⟨JsVal.num la, JsVal.num lo⟩ now),
        Ev.cb none (some ⟨JsVal.num la, JsVal.num lo⟩)], none,
       some (storeString ⟨JsVal.num la, JsVal.num lo⟩ now)⟩ := by
  simp [seqLoop, typeofNumber]

/-- C8: a provider success with a non-number latitude or longitude behaves
like a provider error — with providers remaining the chain recurses on the
same remaining queue, and with the queue exhausted the completion callback
receives the fresh `TypeError('Incorrect data')`, an error distinguishable
from any provider-surfaced error. -/
theorem C8_malformed_is_fallback_with_type_error (i : Nat) (d : JsData)
    (rest : List Provider) (now : Int) (store : Option String)
    (hm : (typeofNumber d.latitude && typeofNumber d.longitude) = false) :
    (rest ≠ [] →
      seqLoop now store (⟨i, ProviderResponse.ok d⟩ :: rest) =
        ⟨Ev.contact i :: (seqLoop now store rest).events,
         (seqLoop now store rest).thrown, (seqLoop now store rest).store⟩)
    ∧ seqLoop now store [⟨i, ProviderResponse.ok d⟩] =
        ⟨[Ev.contact i, Ev.cb (some (JsError.typeError "Incorrect data")) none], none, store⟩
    ∧ (∀ msg, JsError.typeError "Incorrect data" ≠ JsError.providerError msg) := by
  refine ⟨?_, ?_, fun msg h => JsError.noConfusion h⟩
  · intro hrest
    have hne : rest.isEmpty = false := by
      cases rest with
      | nil => exact absurd rfl hrest
      | cons a l => rfl
    simp [seqLoop, hm, hne]
  · simp [seqLoop, hm]

/-- C8 witness: a provider answering `{latitude: "bad", longitude: 2}` with a
failing provider behind it falls through to that provider; alone, it produces
the `TypeError('Incorrect data')`. -/
theorem C8_malformed_is_fallback_with_type_error_witness :
    seqLoop 0 none
        [⟨1, ProviderResponse.ok ⟨JsVal.str "bad", JsVal.num (some 2)⟩⟩,
         ⟨2, ProviderResponse.err (JsError.providerError "down")⟩] =
      ⟨Ev.contact 1 ::
          (seqLoop 0 none [⟨2, ProviderResponse.err (JsError.providerError "down")⟩]).events,
       (seqLoop 0 none [⟨2, ProviderResponse.err (JsError.providerError "down")⟩]).thrown,
       (seqLoop 0 none [⟨2, ProviderResponse.err (JsError.providerError "down")⟩]).store⟩
    ∧ seqLoop 0 none [⟨1, ProviderResponse.ok ⟨JsVal.str "bad", JsVal.num (some 2)⟩⟩] =
      ⟨[Ev.contact 1, Ev.cb (some (JsError.typeError "Incorrect data")) none], none, none⟩ := by
  constructor
  · exact (C8_malformed_is_fallback_with_type_error 1
      ⟨JsVal.str "bad", JsVal.num (some 2)⟩
      [⟨2, ProviderResponse.err (JsError.providerError "down")⟩] 0 none (by decide)).1
      (by decide)
  · exact (C8_malformed_is_fallback_with_type_error 1
      ⟨JsVal.str "bad", JsVal.num (some 2)⟩ [] 0 none (by decide)).2.1

/-- C9: in the parallel strategy a provider callback carrying an error — or
malformed data — first removes its own request; it invokes the completion
callback (with that error, respectively the `TypeError`) exactly when no other
request is still in flight, and otherwise changes nothing but the request set:
no callback invocation and no cache write. -/
theorem C9_parallel_error_only_when_last (now : Int) (s : PState) (id : Nat)
    (e : JsError) (d : JsData)
    (hm : (typeofNumber d.latitude && typeofNumber d.longitude) = false) :
    ((pStep now s id (ProviderResponse.err e)).cbs =
        if s.requests.erase id = [] then s.cbs ++ [(some e, none)] else s.cbs)
    ∧ (pStep now s id (ProviderResponse.err e)).requests = s.requests.erase id
    ∧ (pStep now s id (ProviderResponse.err e)).store = s.store
    ∧ ((pStep now s id (ProviderResponse.ok d)).cbs =
        if s.requests.erase id = [] then
          s.cbs ++ [(some (JsError.typeError "Incorrect data"), none)]
        else s.cbs)
    ∧ (pStep now s id (ProviderResponse.ok d)).store = s.store := by
  by_cases h : s.requests.erase id = []
  · refine ⟨?_, ?_, ?_, ?_, ?_⟩ <;> simp [pStep, hasRequests, h, hm]
  · have hne : (s.requests.erase id).isEmpty = false := by
      cases hl : s.requests.erase id with
      | nil => exact absurd hl h
      | cons a l => rfl
    refine ⟨?_, ?_, ?_, ?_, ?_⟩ <;> simp [pStep, hasRequests, hne, h, hm]

/-- C9 witness: with requests `[4, 9]` in flight, provider 4's error leaves
the callback untouched and request 9 pending; with only request 4 in flight,
its error reaches the callback. -/
theorem C9_parallel_error_only_when_last_witness :
    (pStep 0 ⟨[4, 9], [], none, []⟩ 4
        (ProviderResponse.err (JsError.providerError "nope"))).cbs = []
    ∧ (pStep 0 ⟨[4, 9], [], none, []⟩ 4
        (ProviderResponse.err (JsError.providerError "nope"))).requests = [9]
    ∧ (pStep 0 ⟨[4], [], none, []⟩ 4
        (ProviderResponse.err (JsError.providerError "nope"))).cbs =
        [(some (JsError.providerError "nope"), none)]
    ∧ (pStep 0 ⟨[4], [], none, []⟩ 4
        (ProviderResponse.ok ⟨JsVal.undef, JsVal.num (some 2)⟩)).cbs =
        [(some (JsError.typeError "Incorrect data"), none)] := by
  refine ⟨?_, ?_, ?_, ?_⟩
  · have h := (C9_parallel_error_only_when_last 0 ⟨[4, 9], [], none, []⟩ 4
      (JsError.providerError "nope") ⟨JsVal.undef, JsVal.num (some 2)⟩ (by decide)).1
    simpa using h
  · have h := (C9_parallel_error_only_when_last 0 ⟨[4, 9], [], none, []⟩ 4
      (JsError.providerError "nope") ⟨JsVal.undef, JsVal.num (some 2)⟩ (by decide)).2.1
    simpa using h
  · have h := (C9_parallel_error_only_when_last 0 ⟨[4], [], none, []⟩ 4
      (JsError.providerError "nope") ⟨JsVal.undef, JsVal.num (some 2)⟩ (by decide)).1
    simpa using h
  · have h := (C9_parallel_error_only_when_last 0 ⟨[4], [], none, []⟩ 4
      (JsError.providerError "nope") ⟨JsVal.undef, JsVal.num (some 2)⟩ (by decide)).2.2.2.1
    simpa using h

/-- C10: a provider result whose latitude is NaN still has number type, so the
well-formedness check passes: the sequential chain caches it and completes
with `(null, position)`, and a parallel callback carrying it aborts the
remaining requests, caches it and completes — in both strategies it is a
success, not a malformed result. -/
theorem C10_nan_coordinates_pass (lo : JsNum) (i : Nat) (rest : List Provider)
    (now : Int) (store : Option String) (s : PState) :
    typeofNumber (JsVal.num none) = true
    ∧ seqLoop now store (⟨i, ProviderResponse.ok ⟨JsVal.num none, JsVal.num lo⟩⟩ :: rest) =
        ⟨[Ev.contact i, Ev.write (storeString ⟨JsVal.num none, JsVal.num lo⟩ now),
          Ev.cb none (some ⟨JsVal.num none, JsVal.num lo⟩)], none,
         some (storeString ⟨JsVal.num none, JsVal.num lo⟩ now)⟩
    ∧ (pStep now s i (ProviderResponse.ok ⟨JsVal.num none, JsVal.num lo⟩)).cbs =
        s.cbs ++ [(none, some ⟨JsVal.num none, JsVal.num lo⟩)]
    ∧ (pStep now s i (ProviderResponse.ok ⟨JsVal.num none, JsVal.num lo⟩)).store =
        some (storeString ⟨JsVal.num none, JsVal.num lo⟩ now)
    ∧ (pStep now s i (ProviderResponse.ok ⟨JsVal.num none, JsVal.num lo⟩)).requests = [] := by
  refine ⟨rfl, by simp [seqLoop, typeofNumber], ?_, ?_, ?_⟩ <;>
    simp [pStep, typeofNumber]

end GeoLoc
